import Mathlib

/-!
Shallow embedding of the orchestration logic of the sample-video-rag
repository: the job-polling monitor (`monitor_video_generation`, from the
text-only notebook embedded in `cft-video-generation-blog.yml`), the
payload builders (`build_model_input`, one per notebook variant), and the
retrieval-augmented orchestrators (`vrag` and `process_videos_from_prompts`
from `_06_video_gen_inpainting.ipynb`).  External AWS services (OpenSearch,
S3, Bedrock) are modelled as an explicit environment of response streams;
the polling loop is driven by fuel, one unit per status poll.
-/

namespace VideoRag

/-- One entry of the "images" list of `textToVideoParams`:
`{"format": "png", "source": {"bytes": <base64>}}`. -/
structure ImageInput where
  format : String
  sourceBytes : String
deriving DecidableEq, Repr

/-- The `textToVideoParams` sub-dictionary.  `images = none` means the
"images" key is absent from the dictionary; `images = some l` means the key
is present and maps to the list `l`. -/
structure TextToVideoParams where
  text : String
  images : Option (List ImageInput)
deriving DecidableEq, Repr

/-- The `videoGenerationConfig` sub-dictionary. -/
structure VideoGenerationConfig where
  durationSeconds : Int
  fps : Int
  dimension : String
  seed : Int
deriving DecidableEq, Repr

/-- The full model-input payload sent to the video generation service. -/
structure ModelInput where
  taskType : String
  textToVideoParams : TextToVideoParams
  videoGenerationConfig : VideoGenerationConfig
deriving DecidableEq, Repr

/-- Python truthiness of an optional string argument: `None` and the empty
string are falsy, every other string is truthy. -/
def strOptTruthy : Option String → Bool
  | none => false
  | some s => !(s == "")

namespace TextImageNotebook

/-- `build_model_input` as defined in `_03_video_gen_text_image.ipynb`:
the "images" key is always present in `textToVideoParams`; it holds a
one-element list when `image_base64` is truthy and the empty list
otherwise. -/
def build_model_input (prompt : String) (image_base64 : Option String)
    (duration : Int) (fps : Int) (resolution : String) (seed : Int) :
    ModelInput :=
  let image_parameter : List ImageInput :=
    if strOptTruthy image_base64 then
      [{ format := "png", sourceBytes := image_base64.getD "" }]
    else []
  { taskType := "TEXT_VIDEO"
    textToVideoParams := { text := prompt, images := some image_parameter }
    videoGenerationConfig :=
      { durationSeconds := duration, fps := fps, dimension := resolution,
        seed := seed } }

end TextImageNotebook

namespace TextOnlyNotebook

/-- `build_model_input` as defined in the text-only notebook embedded in
`cft-video-generation-blog.yml`: the base payload has no "images" key (the
line is commented out in the source); the key is added only when
`image_base64` is truthy. -/
def build_model_input (prompt : String) (image_base64 : Option String)
    (duration : Int) (fps : Int) (resolution : String) (seed : Int) :
    ModelInput :=
  let output : ModelInput :=
    { taskType := "TEXT_VIDEO"
      textToVideoParams := { text := prompt, images := none }
      videoGenerationConfig :=
        { durationSeconds := duration, fps := fps, dimension := resolution,
          seed := seed } }
  if strOptTruthy image_base64 then
    { output with
      textToVideoParams :=
        { output.textToVideoParams with
          images := some [{ format := "png",
                            sourceBytes := image_base64.getD "" }] } }
  else output

end TextOnlyNotebook

/-- The response of one `get_async_invoke` status poll, holding the fields
the monitor reads: `status`, the declared output location
`outputDataConfig.s3OutputDataConfig.s3Uri`, `failureMessage` and
`submitTime`. -/
structure GetAsyncResponse where
  status : String
  s3Uri : String
  failureMessage : String
  submitTime : String
deriving DecidableEq, Repr

/-- The loop guard of the monitor: `status in ["Completed", "Failed"]`. -/
def isTerminalStatus (s : String) : Bool :=
  s == "Completed" || s == "Failed"

/-- The fixed polling interval, in seconds, of each `time.sleep` call in
the monitor loop. -/
def pollIntervalSeconds : Nat := 60

/-- Console line printed on a `Completed` poll. -/
def completedLog (r : GetAsyncResponse) : String :=
  "Video generation completed. Video available at: " ++ r.s3Uri
    ++ "/output.mp4"

/-- Console line printed on an `InProgress` poll. -/
def inProgressLog (arn : String) (r : GetAsyncResponse) : String :=
  "Job " ++ arn ++ " is in progress. Started at: " ++ r.submitTime

/-- Console line printed on a `Failed` poll, carrying the
service-provided `failureMessage`. -/
def failedLog (arn : String) (r : GetAsyncResponse) : String :=
  "Job " ++ arn ++ " failed. Reason: " ++ r.failureMessage

/-- Decidable equality for `Except`, needed so monitor and orchestrator
outcomes can be compared by `decide` on concrete inputs. -/
instance exceptDecEq {ε α : Type} [DecidableEq ε] [DecidableEq α] :
    DecidableEq (Except ε α)
  | Except.error e, Except.error f =>
    if h : e = f then Decidable.isTrue (by rw [h])
    else Decidable.isFalse (by intro hc; cases hc; exact h rfl)
  | Except.error _, Except.ok _ => Decidable.isFalse (by intro hc; cases hc)
  | Except.ok _, Except.error _ => Decidable.isFalse (by intro hc; cases hc)
  | Except.ok x, Except.ok y =>
    if h : x = y then Decidable.isTrue (by rw [h])
    else Decidable.isFalse (by intro hc; cases hc; exact h rfl)

/-- Observable outcome of a monitor run: `result = none` while the loop is
still polling (fuel exhausted), `some (Except.ok uri)` for a normal return,
`some (Except.error msg)` for a raised `RuntimeError msg`.  `polls` counts
`get_async_invoke` calls, `sleeps` counts `time.sleep(60)` calls, `logs`
the printed lines, in order. -/
structure MonitorState where
  result : Option (Except String String)
  polls : Nat
  sleeps : Nat
  logs : List String
deriving DecidableEq, Repr

/-- The polling loop of `monitor_video_generation`, one fuel unit per
iteration.  `i` is the index of the next poll in the status stream, `sl`
the sleeps so far, `logs` the console lines so far.  Branch order follows
the source: `Completed` returns, `InProgress` logs and falls through to the
sleep, `Failed` raises, any other status silently falls through to the
sleep; the `while` guard can never exit the loop itself because both
terminal statuses leave the body first. -/
def monitorAux (poll : Nat → GetAsyncResponse) (arn : String) :
    Nat → Nat → Nat → List String → MonitorState
  | 0, i, sl, logs => { result := none, polls := i, sleeps := sl, logs := logs }
  | fuel + 1, i, sl, logs =>
    let r := poll i
    if r.status == "Completed" then
      { result := some (Except.ok (r.s3Uri ++ "/output.mp4")),
        polls := i + 1, sleeps := sl, logs := logs ++ [completedLog r] }
    else if r.status == "InProgress" then
      monitorAux poll arn fuel (i + 1) (sl + 1) (logs ++ [inProgressLog arn r])
    else if r.status == "Failed" then
      { result := some (Except.error "Video generation failed."),
        polls := i + 1, sleeps := sl, logs := logs ++ [failedLog arn r] }
    else
      monitorAux poll arn fuel (i + 1) (sl + 1) logs

/-- `monitor_video_generation` from the text-only notebook embedded in
`cft-video-generation-blog.yml`, run against the status stream `poll` for
at most `fuel` polls. -/
def monitor_video_generation (poll : Nat → GetAsyncResponse) (arn : String)
    (fuel : Nat) : MonitorState :=
  monitorAux poll arn fuel 0 0 []

/-- Console lines produced by one non-terminal poll: `InProgress` prints a
progress line, any other non-terminal status prints nothing. -/
def nonTermLog (arn : String) (r : GetAsyncResponse) : List String :=
  if r.status == "InProgress" then [inProgressLog arn r] else []

/-- Console lines produced by the `n` non-terminal polls at stream indices
`i, i+1, …, i+n-1`. -/
def nonTermLogs (arn : String) (poll : Nat → GetAsyncResponse) :
    Nat → Nat → List String
  | _, 0 => []
  | i, n + 1 => nonTermLog arn (poll i) ++ nonTermLogs arn poll (i + 1) n

/-- The state in which the monitor leaves the loop on a terminal response
`r`: a normal return of the derived location on `Completed`, a raised
`RuntimeError` with a fixed message on `Failed`. -/
def termState (arn : String) (r : GetAsyncResponse) (polls sleeps : Nat)
    (logs : List String) : MonitorState :=
  if r.status == "Completed" then
    { result := some (Except.ok (r.s3Uri ++ "/output.mp4")),
      polls := polls, sleeps := sleeps, logs := logs ++ [completedLog r] }
  else
    { result := some (Except.error "Video generation failed."),
      polls := polls, sleeps := sleeps, logs := logs ++ [failedLog arn r] }

theorem terminal_cases {s : String} (h : isTerminalStatus s = true) :
    s = "Completed" ∨ s = "Failed" := by
  simpa [isTerminalStatus, Bool.or_eq_true, beq_iff_eq] using h

theorem nonterminal_cases {s : String} (h : isTerminalStatus s = false) :
    s ≠ "Completed" ∧ s ≠ "Failed" := by
  simpa [isTerminalStatus, beq_eq_false_iff_ne] using h

/-- Characterization of the polling loop when the first terminal response
relative to the current stream index `i` sits at offset `n`: the loop
makes exactly `n + 1` further polls and `n` further sleeps, then leaves in
the terminal state, provided at least `n + 1` fuel remains. -/
theorem monitorAux_first_terminal (poll : Nat → GetAsyncResponse)
    (arn : String) :
    ∀ (n fuel i sl : Nat) (logs : List String),
      (∀ k, k < n → isTerminalStatus (poll (i + k)).status = false) →
      isTerminalStatus (poll (i + n)).status = true →
      n + 1 ≤ fuel →
      monitorAux poll arn fuel i sl logs =
        termState arn (poll (i + n)) (i + n + 1) (sl + n)
          (logs ++ nonTermLogs arn poll i n) := by
  intro n
  induction n with
  | zero =>
    intro fuel i sl logs _ hterm hfuel
    obtain ⟨f, rfl⟩ : ∃ f, fuel = f + 1 := ⟨fuel - 1, by omega⟩
    rw [Nat.add_zero] at hterm ⊢
    rcases terminal_cases hterm with hC | hF
    · simp [monitorAux, termState, nonTermLogs, hC]
    · have h1 : (("Failed" : String) == "Completed") = false := rfl
      have h2 : (("Failed" : String) == "InProgress") = false := rfl
      simp [monitorAux, termState, nonTermLogs, hF, h1, h2]
  | succ m ih =>
    intro fuel i sl logs hpre hterm hfuel
    obtain ⟨f, rfl⟩ : ∃ f, fuel = f + 1 := ⟨fuel - 1, by omega⟩
    have h0 : isTerminalStatus (poll i).status = false := by
      simpa using hpre 0 (Nat.succ_pos m)
    obtain ⟨hnc, hnf⟩ := nonterminal_cases h0
    have hncb : ((poll i).status == "Completed") = false := by
      simpa [beq_eq_false_iff_ne] using hnc
    have hnfb : ((poll i).status == "Failed") = false := by
      simpa [beq_eq_false_iff_ne] using hnf
    have hpre2 : ∀ k, k < m →
        isTerminalStatus (poll (i + 1 + k)).status = false := by
      intro k hk
      have h := hpre (k + 1) (by omega)
      have e : i + (k + 1) = i + 1 + k := by omega
      rwa [e] at h
    have hterm2 : isTerminalStatus (poll (i + 1 + m)).status = true := by
      have e : i + (m + 1) = i + 1 + m := by omega
      rwa [e] at hterm
    have eidx : i + 1 + m = i + (m + 1) := by omega
    have esl : sl + 1 + m = sl + (m + 1) := by omega
    by_cases hip : (poll i).status = "InProgress"
    · have hstep : monitorAux poll arn (f + 1) i sl logs =
          monitorAux poll arn f (i + 1) (sl + 1)
            (logs ++ [inProgressLog arn (poll i)]) := by
        simp [monitorAux, hncb, hip]
      rw [hstep, ih f (i + 1) (sl + 1) _ hpre2 hterm2 (by omega),
        eidx, esl]
      simp [nonTermLogs, nonTermLog, hip, List.append_assoc]
    · have hipb : ((poll i).status == "InProgress") = false := by
        simpa [beq_eq_false_iff_ne] using hip
      have hstep : monitorAux poll arn (f + 1) i sl logs =
          monitorAux poll arn f (i + 1) (sl + 1) logs := by
        simp [monitorAux, hncb, hnfb, hipb]
      rw [hstep, ih f (i + 1) (sl + 1) _ hpre2 hterm2 (by omega),
        eidx, esl]
      simp [nonTermLogs, nonTermLog, hipb]

/-- Characterization of the polling loop while no terminal response has
arrived: after `fuel` polls the loop is still running, having slept after
every single poll. -/
theorem monitorAux_no_terminal (poll : Nat → GetAsyncResponse)
    (arn : String) :
    ∀ (fuel i sl : Nat) (logs : List String),
      (∀ k, k < fuel → isTerminalStatus (poll (i + k)).status = false) →
      monitorAux poll arn fuel i sl logs =
        { result := none, polls := i + fuel, sleeps := sl + fuel,
          logs := logs ++ nonTermLogs arn poll i fuel } := by
  intro fuel
  induction fuel with
  | zero => intro i sl logs _; simp [monitorAux, nonTermLogs]
  | succ f ih =>
    intro i sl logs hpre
    have h0 : isTerminalStatus (poll i).status = false := by
      simpa using hpre 0 (Nat.succ_pos f)
    obtain ⟨hnc, hnf⟩ := nonterminal_cases h0
    have hncb : ((poll i).status == "Completed") = false := by
      simpa [beq_eq_false_iff_ne] using hnc
    have hnfb : ((poll i).status == "Failed") = false := by
      simpa [beq_eq_false_iff_ne] using hnf
    have hpre2 : ∀ k, k < f →
        isTerminalStatus (poll (i + 1 + k)).status = false := by
      intro k hk
      have h := hpre (k + 1) (by omega)
      have e : i + (k + 1) = i + 1 + k := by omega
      rwa [e] at h
    have eidx : i + 1 + f = i + (f + 1) := by omega
    have esl : sl + 1 + f = sl + (f + 1) := by omega
    by_cases hip : (poll i).status = "InProgress"
    · have hstep : monitorAux poll arn (f + 1) i sl logs =
          monitorAux poll arn f (i + 1) (sl + 1)
            (logs ++ [inProgressLog arn (poll i)]) := by
        simp [monitorAux, hncb, hip]
      rw [hstep, ih (i + 1) (sl + 1) _ hpre2, eidx, esl]
      simp [nonTermLogs, nonTermLog, hip, List.append_assoc]
    · have hipb : ((poll i).status == "InProgress") = false := by
        simpa [beq_eq_false_iff_ne] using hip
      have hstep : monitorAux poll arn (f + 1) i sl logs =
          monitorAux poll arn f (i + 1) (sl + 1) logs := by
        simp [monitorAux, hncb, hnfb, hipb]
      rw [hstep, ih (i + 1) (sl + 1) _ hpre2, eidx, esl]
      simp [nonTermLogs, nonTermLog, hipb]

/-- First-terminal characterization of a monitor run started at the head
of the status stream. -/
theorem monitor_first_terminal (poll : Nat → GetAsyncResponse)
    (arn : String) (n fuel : Nat)
    (hpre : ∀ k, k < n → isTerminalStatus (poll k).status = false)
    (hterm : isTerminalStatus (poll n).status = true)
    (hfuel : n + 1 ≤ fuel) :
    monitor_video_generation poll arn fuel =
      termState arn (poll n) (n + 1) n (nonTermLogs arn poll 0 n) := by
  have h := monitorAux_first_terminal poll arn n fuel 0 0 []
    (by intro k hk; simpa using hpre k hk) (by simpa using hterm) hfuel
  simpa [monitor_video_generation] using h

/-- Boolean test for one character list being a prefix of another. -/
def isPrefixChars : List Char → List Char → Bool
  | [], _ => true
  | _ :: _, [] => false
  | a :: as, b :: bs => a == b && isPrefixChars as bs

/-- Boolean test for one character list occurring consecutively inside
another. -/
def occursChars (pat : List Char) : List Char → Bool
  | [] => isPrefixChars pat []
  | b :: bs => isPrefixChars pat (b :: bs) || occursChars pat bs

/-- Boolean test for `pat` occurring as a substring of `s`. -/
def isSubstringOf (pat s : String) : Bool :=
  occursChars pat.data s.data

/-- A status stream whose first poll already reports `Failed` with a
non-trivial service-provided failure reason. -/
def failPoll : Nat → GetAsyncResponse :=
  fun _ => { status := "Failed", s3Uri := "",
             failureMessage := "Insufficient capacity", submitTime := "" }

/-- A status stream whose first poll already reports `Completed`. -/
def completedPoll : Nat → GetAsyncResponse :=
  fun _ => { status := "Completed", s3Uri := "s3://bucket/job-7",
             failureMessage := "", submitTime := "" }

/-- A status stream that reports `InProgress` forever. -/
def inProgressPoll : Nat → GetAsyncResponse :=
  fun _ => { status := "InProgress", s3Uri := "", failureMessage := "",
             submitTime := "2025-01-01" }

/-- Claim C1, as stated, is false: on a `Failed` poll whose
`failureMessage` is "Insufficient capacity", the monitor raises
`RuntimeError "Video generation failed."` — a fixed message that neither
equals nor contains the service-provided failure reason. -/
theorem monitor_failed_reason_counterexample :
    (monitor_video_generation failPoll "arn-demo" 1).result
        = some (Except.error "Video generation failed.")
    ∧ isSubstringOf "Insufficient capacity" "Video generation failed."
        = false
    ∧ (monitor_video_generation failPoll "arn-demo" 1).result
        ≠ some (Except.error "Insufficient capacity") := by
  refine ⟨rfl, rfl, by decide⟩

/-- Claim C1 (amended): when the first terminal poll reports `Failed`,
the monitor raises a fatal `RuntimeError` whose message is the fixed
string "Video generation failed."; the service-provided failure reason
appears only in the last console log line, and the job is not retried —
exactly `n + 1` status polls happen no matter how much fuel remains. -/
theorem monitor_failed_raises_fixed_message (poll : Nat → GetAsyncResponse)
    (arn : String) (n fuel : Nat)
    (hpre : ∀ k, k < n → isTerminalStatus (poll k).status = false)
    (hfail : (poll n).status = "Failed")
    (hfuel : n + 1 ≤ fuel) :
    (monitor_video_generation poll arn fuel).result
        = some (Except.error "Video generation failed.")
    ∧ (monitor_video_generation poll arn fuel).polls = n + 1
    ∧ (monitor_video_generation poll arn fuel).logs.getLast?
        = some ("Job " ++ arn ++ " failed. Reason: "
            ++ (poll n).failureMessage) := by
  have hterm : isTerminalStatus (poll n).status = true := by
    simp [isTerminalStatus, hfail]
  have hb : ((poll n).status == "Completed") = false := by simp [hfail]
  rw [monitor_first_terminal poll arn n fuel hpre hterm hfuel]
  refine ⟨by simp [termState, hb], by simp [termState, hb], ?_⟩
  simp [termState, hb, failedLog]

/-- Witness for `monitor_failed_raises_fixed_message` at the concrete
stream `failPoll`. -/
theorem monitor_failed_raises_fixed_message_witness :
    (monitor_video_generation failPoll "arn-demo" 1).result
        = some (Except.error "Video generation failed.")
    ∧ (monitor_video_generation failPoll "arn-demo" 1).polls = 0 + 1
    ∧ (monitor_video_generation failPoll "arn-demo" 1).logs.getLast?
        = some ("Job " ++ "arn-demo" ++ " failed. Reason: "
            ++ (failPoll 0).failureMessage) :=
  monitor_failed_raises_fixed_message failPoll "arn-demo" 0 1
    (fun k hk => absurd hk (Nat.not_lt_zero k)) rfl (by omega)

/-- Claim C5: when the first terminal poll reports `Completed`, the
monitor returns the job's declared output location with "/output.mp4"
appended, and that string is never empty. -/
theorem monitor_completed_returns_location (poll : Nat → GetAsyncResponse)
    (arn : String) (n fuel : Nat)
    (hpre : ∀ k, k < n → isTerminalStatus (poll k).status = false)
    (hcomp : (poll n).status = "Completed")
    (hfuel : n + 1 ≤ fuel) :
    (monitor_video_generation poll arn fuel).result
        = some (Except.ok ((poll n).s3Uri ++ "/output.mp4"))
    ∧ (poll n).s3Uri ++ "/output.mp4" ≠ "" := by
  have hterm : isTerminalStatus (poll n).status = true := by
    simp [isTerminalStatus, hcomp]
  have hb : ((poll n).status == "Completed") = true := by simp [hcomp]
  rw [monitor_first_terminal poll arn n fuel hpre hterm hfuel]
  refine ⟨by simp [termState, hb], ?_⟩
  intro h
  have hlen := congrArg String.length h
  rw [String.length_append] at hlen
  have h11 : ("/output.mp4" : String).length = 11 := rfl
  have h0 : ("" : String).length = 0 := rfl
  rw [h11, h0] at hlen
  omega

/-- Witness for `monitor_completed_returns_location` at the concrete
stream `completedPoll`. -/
theorem monitor_completed_returns_location_witness :
    (monitor_video_generation completedPoll "arn-demo" 1).result
        = some (Except.ok ((completedPoll 0).s3Uri ++ "/output.mp4"))
    ∧ (completedPoll 0).s3Uri ++ "/output.mp4" ≠ "" :=
  monitor_completed_returns_location completedPoll "arn-demo" 0 1
    (fun k hk => absurd hk (Nat.not_lt_zero k)) rfl (by omega)

/-- Claim C6: once the first terminal status (at stream index `n`) is
observed, the monitor issues no further status poll — the total number of
`get_async_invoke` calls is exactly `n + 1`, however much fuel (time)
remains available. -/
theorem monitor_stops_polling_after_terminal
    (poll : Nat → GetAsyncResponse) (arn : String) (n fuel : Nat)
    (hpre : ∀ k, k < n → isTerminalStatus (poll k).status = false)
    (hterm : isTerminalStatus (poll n).status = true)
    (hfuel : n + 1 ≤ fuel) :
    (monitor_video_generation poll arn fuel).polls = n + 1 := by
  rw [monitor_first_terminal poll arn n fuel hpre hterm hfuel]
  cases hb : ((poll n).status == "Completed") <;> simp [termState, hb]

/-- Witness for `monitor_stops_polling_after_terminal`: with nine units of
fuel and an immediately `Completed` job, only one poll happens. -/
theorem monitor_stops_polling_after_terminal_witness :
    (monitor_video_generation completedPoll "arn-demo" 9).polls = 0 + 1 :=
  monitor_stops_polling_after_terminal completedPoll "arn-demo" 0 9
    (fun k hk => absurd hk (Nat.not_lt_zero k)) rfl (by omega)

/-- Claim C7: on the status stream InProgress, InProgress, Completed the
monitor issues exactly three polls, sleeps the fixed 60-second interval
exactly twice (after each non-terminal poll, never after the terminal
one), and yields the result only after the third poll — any run cut off
before three polls is still waiting. -/
theorem monitor_three_poll_scenario (poll : Nat → GetAsyncResponse)
    (arn : String)
    (h0 : (poll 0).status = "InProgress")
    (h1 : (poll 1).status = "InProgress")
    (h2 : (poll 2).status = "Completed") :
    (∀ fuel, 3 ≤ fuel →
        monitor_video_generation poll arn fuel =
          { result := some (Except.ok ((poll 2).s3Uri ++ "/output.mp4")),
            polls := 3, sleeps := 2,
            logs := [inProgressLog arn (poll 0), inProgressLog arn (poll 1),
                     completedLog (poll 2)] })
    ∧ (∀ fuel, fuel < 3 →
        (monitor_video_generation poll arn fuel).result = none)
    ∧ pollIntervalSeconds = 60 := by
  have hpre : ∀ k, k < 2 → isTerminalStatus (poll k).status = false := by
    intro k hk
    have hk2 : k = 0 ∨ k = 1 := by omega
    rcases hk2 with rfl | rfl <;> simp [isTerminalStatus, h0, h1]
  refine ⟨?_, ?_, rfl⟩
  · intro fuel hf
    rw [monitor_first_terminal poll arn 2 fuel hpre
      (by simp [isTerminalStatus, h2]) hf]
    simp [termState, h2, nonTermLogs, nonTermLog, h0, h1]
  · intro fuel hf
    have hpre2 : ∀ k, k < fuel →
        isTerminalStatus (poll (0 + k)).status = false := by
      intro k hk
      have hk2 : k < 2 := by omega
      simpa using hpre k hk2
    have h := monitorAux_no_terminal poll arn fuel 0 0 [] hpre2
    simp [monitor_video_generation, h]

/-- A status stream that is InProgress twice and then Completed. -/
def threePoll : Nat → GetAsyncResponse
  | 0 => { status := "InProgress", s3Uri := "", failureMessage := "",
           submitTime := "t0" }
  | 1 => { status := "InProgress", s3Uri := "", failureMessage := "",
           submitTime := "t1" }
  | _ => { status := "Completed", s3Uri := "s3://bucket/job-3",
           failureMessage := "", submitTime := "t2" }

/-- Witness for `monitor_three_poll_scenario` at the concrete stream
`threePoll`. -/
theorem monitor_three_poll_scenario_witness :
    monitor_video_generation threePoll "arn-demo" 3 =
      { result := some (Except.ok ((threePoll 2).s3Uri ++ "/output.mp4")),
        polls := 3, sleeps := 2,
        logs := [inProgressLog "arn-demo" (threePoll 0),
                 inProgressLog "arn-demo" (threePoll 1),
                 completedLog (threePoll 2)] }
    ∧ (monitor_video_generation threePoll "arn-demo" 2).result = none :=
  ⟨(monitor_three_poll_scenario threePoll "arn-demo" rfl rfl rfl).1 3
      (by omega),
   (monitor_three_poll_scenario threePoll "arn-demo" rfl rfl rfl).2.1 2
      (by omega)⟩

/-- Claim C8: the polling loop has no attempt cutoff and no local
timeout.  If some poll reports a terminal status, a finite fuel suffices
for the loop to finish; if no poll ever does, the loop is still running
after any amount of fuel, having issued one poll per fuel unit — it polls
without bound. -/
theorem monitor_terminates_iff_terminal (poll : Nat → GetAsyncResponse)
    (arn : String) :
    ((∃ n, isTerminalStatus (poll n).status = true) →
      ∃ fuel, (monitor_video_generation poll arn fuel).result ≠ none)
    ∧ ((∀ n, isTerminalStatus (poll n).status = false) →
      ∀ fuel, (monitor_video_generation poll arn fuel).result = none
        ∧ (monitor_video_generation poll arn fuel).polls = fuel) := by
  constructor
  · intro hex
    have hterm : isTerminalStatus (poll (Nat.find hex)).status = true :=
      Nat.find_spec hex
    have hpre : ∀ k, k < Nat.find hex →
        isTerminalStatus (poll k).status = false := by
      intro k hk
      simpa using Nat.find_min hex hk
    refine ⟨Nat.find hex + 1, ?_⟩
    rw [monitor_first_terminal poll arn (Nat.find hex) (Nat.find hex + 1)
      hpre hterm (le_refl _)]
    cases hb : ((poll (Nat.find hex)).status == "Completed") <;>
      simp [termState, hb]
  · intro hall fuel
    have h := monitorAux_no_terminal poll arn fuel 0 0 []
      (fun k _ => by simpa using hall k)
    constructor <;> simp [monitor_video_generation, h]

/-- Witness for `monitor_terminates_iff_terminal`: an immediately
completed stream terminates; an always-in-progress stream is still
polling, one poll per fuel unit, after seven units. -/
theorem monitor_terminates_iff_terminal_witness :
    (∃ fuel,
      (monitor_video_generation completedPoll "arn-demo" fuel).result ≠ none)
    ∧ ((monitor_video_generation inProgressPoll "arn-demo" 7).result = none
        ∧ (monitor_video_generation inProgressPoll "arn-demo" 7).polls = 7) :=
  ⟨(monitor_terminates_iff_terminal completedPoll "arn-demo").1 ⟨0, rfl⟩,
   (monitor_terminates_iff_terminal inProgressPoll "arn-demo").2
      (fun _ => rfl) 7⟩

/-- One OpenSearch hit, reduced to the only `_source` field the
orchestrators read: `image_base64_s3_uri`. -/
structure SearchHit where
  image_base64_s3_uri : String
deriving DecidableEq, Repr

/-- Python `s.split('/')`: split a character list at every slash, keeping
empty segments, with `[""] ` for the empty string. -/
def splitOnSlash : List Char → List (List Char)
  | [] => [[]]
  | c :: rest =>
    if c == '/' then [] :: splitOnSlash rest
    else
      match splitOnSlash rest with
      | [] => [[c]]
      | h :: t => (c :: h) :: t

/-- Python `"/".join(parts)`. -/
def joinWithSlash : List String → String
  | [] => ""
  | [s] => s
  | s :: rest => s ++ "/" ++ joinWithSlash rest

/-- `"/".join(uri.split('/')[3:])`: the S3 object key extracted from an
`s3://bucket/...` URI by dropping the first three slash-separated
segments. -/
def fileKeyOf (uri : String) : String :=
  joinWithSlash (((splitOnSlash uri.data).drop 3).map fun l => String.mk l)

/-- External calls the orchestrators make, in order. -/
inductive Event where
  | searchCall (prompt : String) (top_k : Nat)
  | s3Get (bucket : String) (key : String)
  | submitJob (input : ModelInput)
  | getStatus (arn : String)
deriving DecidableEq, Repr

/-- `true` exactly on the calls that reach the Generation Job Client:
job submission and status polls. -/
def isGenClientCall : Event → Bool
  | Event.submitJob _ => true
  | Event.getStatus _ => true
  | _ => false

/-- The external services, as response streams: `search qi prompt k` is
what the `qi`-th OpenSearch query of a run returns, `s3Text bucket key`
what `read_s3_text` yields (`none` models its logged-and-swallowed
exception path), `submitArn si` the invocation ARN handed out by the
`si`-th `start_async_invoke` of a run, and `poll arn j` the `j`-th status
response for that ARN. -/
structure Env where
  search : Nat → String → Nat → List SearchHit
  s3Text : String → String → Option String
  submitArn : Nat → String
  poll : String → Nat → GetAsyncResponse

/-- `vrag` from the final (step-5) notebook stored in
`_06_video_gen_inpainting.ipynb`: query OpenSearch with the image prompt
at `top_k = 1`; on an empty result list return `None` (skip) without
touching the generation service; otherwise fetch the hit's encoded image
from S3, build the model input with the camera prompt, submit, and hand
over to the monitor.  The first component is `none` while the monitor is
still polling, otherwise the returned/raised outcome; the second is the
trace of external calls. -/
def vrag (env : Env) (bucket : String) (fuel : Nat)
    (image_prompt camera_prompt : String) :
    Option (Except String (Option String)) × List Event :=
  match env.search 0 image_prompt 1 with
  | [] => (some (Except.ok none), [Event.searchCall image_prompt 1])
  | hit :: _ =>
    let file_key := fileKeyOf hit.image_base64_s3_uri
    let image_base64 := env.s3Text bucket file_key
    let model_input :=
      TextImageNotebook.build_model_input camera_prompt image_base64
        6 24 "1280x720" 0
    let arn := env.submitArn 0
    let st := monitor_video_generation (env.poll arn) arn fuel
    (st.result.map (fun r => Except.map some r),
      [Event.searchCall image_prompt 1, Event.s3Get bucket file_key,
       Event.submitJob model_input]
        ++ List.replicate st.polls (Event.getStatus arn))

/-- The notebook globals the inpainting variant of `vrag` reads instead
of its parameters. -/
structure InpaintGlobals where
  action_prompt : String
  inpainted_image_s3_key_file : String
  bucket : String

/-- `vrag` as defined earlier in `_06_video_gen_inpainting.ipynb` (the
inpainting walkthrough): it takes `image_prompt` and `camera_prompt` but
builds the model input from the global `action_prompt` and the fixed
inpainted-image S3 key, submits, and monitors. -/
def vrag_inpaint (env : Env) (g : InpaintGlobals) (fuel : Nat)
    (image_prompt camera_prompt : String) :
    Option (Except String String) × List Event :=
  let model_input :=
    TextImageNotebook.build_model_input g.action_prompt
      (env.s3Text g.bucket g.inpainted_image_s3_key_file) 6 24 "1280x720" 0
  let arn := env.submitArn 0
  let st := monitor_video_generation (env.poll arn) arn fuel
  (st.result,
    [Event.s3Get g.bucket g.inpainted_image_s3_key_file,
     Event.submitJob model_input]
      ++ List.replicate st.polls (Event.getStatus arn))

/-- The loop body of `process_videos_from_prompts`, recursing over the
remaining prompts.  `qi` counts OpenSearch queries so far, `si` counts job
submissions so far, `acc` is `video_uris`, `tr` the call trace.  An empty
search result `continue`s — it appends nothing to `acc`; a monitor
`RuntimeError` propagates, ending the whole run with that error; a monitor
still polling when fuel runs out leaves the run unfinished (`none`). -/
def processAux (env : Env) (bucket : String) (fuel : Nat)
    (object_prompt : String) :
    List String → Nat → Nat → List (String × String) → List Event →
    Option (Except String (List (String × String))) × List Event
  | [], _, _, acc, tr => (some (Except.ok acc), tr)
  | p :: rest, qi, si, acc, tr =>
    match env.search qi object_prompt 1 with
    | [] =>
      processAux env bucket fuel object_prompt rest (qi + 1) si acc
        (tr ++ [Event.searchCall object_prompt 1])
    | hit :: _ =>
      let file_key := fileKeyOf hit.image_base64_s3_uri
      let image_base64 := env.s3Text bucket file_key
      let model_input :=
        TextImageNotebook.build_model_input p image_base64 6 24 "1280x720" 0
      let arn := env.submitArn si
      let st := monitor_video_generation (env.poll arn) arn fuel
      let tr2 := tr ++ [Event.searchCall object_prompt 1,
        Event.s3Get bucket file_key, Event.submitJob model_input]
        ++ List.replicate st.polls (Event.getStatus arn)
      match st.result with
      | none => (none, tr2)
      | some (Except.error e) => (some (Except.error e), tr2)
      | some (Except.ok uri) =>
        processAux env bucket fuel object_prompt rest (qi + 1) (si + 1)
          (acc ++ [(uri, p)]) tr2

/-- `process_videos_from_prompts` from `_06_video_gen_inpainting.ipynb`:
iterate over the formatted prompts, querying OpenSearch for the object
prompt each time, skipping an item when no image is found and otherwise
generating and monitoring one video per item, collecting
`(video_uri, formatted_prompt)` pairs. -/
def process_videos_from_prompts (env : Env) (bucket : String) (fuel : Nat)
    (prompt_list : List String) (object_prompt : String) :
    Option (Except String (List (String × String))) × List Event :=
  processAux env bucket fuel object_prompt prompt_list 0 0 [] []

/-- The number of job submissions in a trace. -/
def countSubmits : List Event → Nat
  | [] => 0
  | Event.submitJob _ :: r => countSubmits r + 1
  | _ :: r => countSubmits r

/-- The number of OpenSearch queries in a trace. -/
def countSearches : List Event → Nat
  | [] => 0
  | Event.searchCall _ _ :: r => countSearches r + 1
  | _ :: r => countSearches r

theorem countSubmits_append (a b : List Event) :
    countSubmits (a ++ b) = countSubmits a + countSubmits b := by
  induction a with
  | nil => simp [countSubmits]
  | cons e r ih => cases e <;> simp [countSubmits, ih] <;> omega

theorem countSubmits_replicate_getStatus (n : Nat) (arn : String) :
    countSubmits (List.replicate n (Event.getStatus arn)) = 0 := by
  induction n with
  | zero => simp [countSubmits]
  | succ m ih => simp [List.replicate, countSubmits, ih]

/-- An environment whose OpenSearch index never returns a hit. -/
def emptySearchEnv : Env :=
  { search := fun _ _ _ => [],
    s3Text := fun _ _ => some "IMGDATA",
    submitArn := fun _ => "arn-0",
    poll := fun _ _ => { status := "Completed", s3Uri := "s3://bucket/out",
                         failureMessage := "", submitTime := "" } }

/-- Claim C4: on an empty nearest-neighbor result list, `vrag` returns
the skip marker `None` immediately, its trace is the single OpenSearch
query, and in particular no job submission and no status poll occur. -/
theorem vrag_empty_search_skips (env : Env) (bucket : String) (fuel : Nat)
    (image_prompt camera_prompt : String)
    (h : env.search 0 image_prompt 1 = []) :
    vrag env bucket fuel image_prompt camera_prompt
        = (some (Except.ok none), [Event.searchCall image_prompt 1])
    ∧ ∀ e ∈ (vrag env bucket fuel image_prompt camera_prompt).2,
        isGenClientCall e = false := by
  have hv : vrag env bucket fuel image_prompt camera_prompt
      = (some (Except.ok none), [Event.searchCall image_prompt 1]) := by
    simp [vrag, h]
  refine ⟨hv, ?_⟩
  rw [hv]
  intro e he
  simp only [List.mem_singleton] at he
  subst he
  rfl

/-- Witness for `vrag_empty_search_skips` at the concrete environment
`emptySearchEnv`. -/
theorem vrag_empty_search_skips_witness :
    vrag emptySearchEnv "bkt" 5 "red shoes" "camera pans"
        = (some (Except.ok none), [Event.searchCall "red shoes" 1])
    ∧ ∀ e ∈ (vrag emptySearchEnv "bkt" 5 "red shoes" "camera pans").2,
        isGenClientCall e = false :=
  vrag_empty_search_skips emptySearchEnv "bkt" 5 "red shoes" "camera pans"
    rfl

/-- Claim C10: the inpainting-notebook `vrag` ignores both of its
parameters — under the same globals and the same external responses, any
two argument pairs produce identical runs, and the submitted request is
built from the global `action_prompt` and the fixed inpainted-image S3
key. -/
theorem vrag_inpaint_ignores_arguments (env : Env) (g : InpaintGlobals)
    (fuel : Nat) (ip1 cp1 ip2 cp2 : String) :
    vrag_inpaint env g fuel ip1 cp1 = vrag_inpaint env g fuel ip2 cp2
    ∧ Event.submitJob (TextImageNotebook.build_model_input g.action_prompt
          (env.s3Text g.bucket g.inpainted_image_s3_key_file)
          6 24 "1280x720" 0)
        ∈ (vrag_inpaint env g fuel ip1 cp1).2 := by
  refine ⟨rfl, ?_⟩
  simp [vrag_inpaint]

/-- `monitor_video_generation` on a stream whose very first poll reports
`Completed`: one poll, no sleep. -/
theorem monitor_completed_first (poll : Nat → GetAsyncResponse)
    (arn : String) (fuel : Nat) (hfuel : 1 ≤ fuel)
    (h : (poll 0).status = "Completed") :
    monitor_video_generation poll arn fuel =
      { result := some (Except.ok ((poll 0).s3Uri ++ "/output.mp4")),
        polls := 1, sleeps := 0, logs := [completedLog (poll 0)] } := by
  have hb : ((poll 0).status == "Completed") = true := by simp [h]
  rw [monitor_first_terminal poll arn 0 fuel
    (fun k hk => absurd hk (Nat.not_lt_zero k))
    (by simp [isTerminalStatus, h]) hfuel]
  simp [termState, hb, nonTermLogs]

/-- Hits among the searches for the items of `ps`, the `qi`-th query
onwards: the items whose nearest-neighbor lookup returns a non-empty
list. -/
def countHits (env : Env) (obj : String) : List String → Nat → Nat
  | [], _ => 0
  | _ :: rest, qi =>
    (if env.search qi obj 1 = [] then 0 else 1)
      + countHits env obj rest (qi + 1)

/-- Misses among the searches for the items of `ps`, the `qi`-th query
onwards: the items whose nearest-neighbor lookup returns an empty list. -/
def countMisses (env : Env) (obj : String) : List String → Nat → Nat
  | [], _ => 0
  | _ :: rest, qi =>
    (if env.search qi obj 1 = [] then 1 else 0)
      + countMisses env obj rest (qi + 1)

theorem countHits_add_countMisses (env : Env) (obj : String) :
    ∀ (ps : List String) (qi : Nat),
      countHits env obj ps qi + countMisses env obj ps qi = ps.length := by
  intro ps
  induction ps with
  | nil => intro qi; simp [countHits, countMisses]
  | cons p rest ih =>
    intro qi
    have h2 := ih (qi + 1)
    by_cases h : env.search qi obj 1 = [] <;>
      simp [countHits, countMisses, h] <;> omega

/-- The output `process_videos_from_prompts` builds when every submitted
job completes on its first poll: one `(uri, prompt)` pair per hit item,
in input order, and nothing for a missed item. -/
def expectedOutputs (env : Env) (obj : String) :
    List String → Nat → Nat → List (String × String)
  | [], _, _ => []
  | p :: rest, qi, si =>
    match env.search qi obj 1 with
    | [] => expectedOutputs env obj rest (qi + 1) si
    | _ :: _ =>
      ((env.poll (env.submitArn si) 0).s3Uri ++ "/output.mp4", p)
        :: expectedOutputs env obj rest (qi + 1) (si + 1)

theorem expectedOutputs_length (env : Env) (obj : String) :
    ∀ (ps : List String) (qi si : Nat),
      (expectedOutputs env obj ps qi si).length = countHits env obj ps qi := by
  intro ps
  induction ps with
  | nil => intro qi si; simp [expectedOutputs, countHits]
  | cons p rest ih =>
    intro qi si
    cases hs : env.search qi obj 1 with
    | nil => simp [expectedOutputs, countHits, hs, ih]
    | cons hit hits =>
      simp [expectedOutputs, countHits, hs, ih]
      omega

/-- Per-run characterization of the batch loop when every submitted job
completes on its first poll: the collected list extends `acc` by exactly
the hit items' pairs, and the trace gains one submission per hit item. -/
theorem processAux_all_completed (env : Env) (bucket obj : String)
    (fuel : Nat) (hfuel : 1 ≤ fuel)
    (hcomp : ∀ arn, (env.poll arn 0).status = "Completed") :
    ∀ (ps : List String) (qi si : Nat) (acc : List (String × String))
      (tr : List Event),
      (processAux env bucket fuel obj ps qi si acc tr).1
          = some (Except.ok (acc ++ expectedOutputs env obj ps qi si))
      ∧ countSubmits (processAux env bucket fuel obj ps qi si acc tr).2
          = countSubmits tr + countHits env obj ps qi := by
  intro ps
  induction ps with
  | nil =>
    intro qi si acc tr
    simp [processAux, expectedOutputs, countHits]
  | cons p rest ih =>
    intro qi si acc tr
    cases hs : env.search qi obj 1 with
    | nil =>
      constructor
      · simp only [processAux, hs]
        rw [(ih (qi + 1) si _ _).1]
        simp [expectedOutputs, hs]
      · simp only [processAux, hs]
        rw [(ih (qi + 1) si _ _).2]
        simp [countSubmits_append, countSubmits, countHits, hs]
    | cons hit hits =>
      have hm := monitor_completed_first (env.poll (env.submitArn si))
        (env.submitArn si) fuel hfuel (hcomp _)
      constructor
      · simp only [processAux, hs, hm]
        rw [(ih (qi + 1) (si + 1) _ _).1]
        simp [expectedOutputs, hs]
      · simp only [processAux, hs, hm]
        rw [(ih (qi + 1) (si + 1) _ _).2]
        simp [countSubmits_append, countSubmits,
          countSubmits_replicate_getStatus, countHits, hs]
        omega

/-- An environment in which the first OpenSearch query of a run misses
and every later one hits, with every job completing on its first poll. -/
def missFirstEnv : Env :=
  { search := fun qi _ _ =>
      if qi == 0 then []
      else [{ image_base64_s3_uri := "s3://bkt/keys/img1.txt" }],
    s3Text := fun _ _ => some "IMGDATA",
    submitArn := fun _ => "arn-0",
    poll := fun _ _ => { status := "Completed", s3Uri := "s3://bkt/out7",
                         failureMessage := "", submitTime := "" } }

/-- Claim C2, as stated, is false: over the two prompts "p1", "p2" with
the first lookup missing (N = 2, M = 1), the batch performs the expected
N − M = 1 submission but returns a one-element list — the missed item
contributes no skip-marker entry, so the output does not have one entry
per input item. -/
theorem process_no_skip_marker_counterexample :
    (process_videos_from_prompts missFirstEnv "bkt" 1 ["p1", "p2"]
        "red shoes").1
      = some (Except.ok [("s3://bkt/out7/output.mp4", "p2")])
    ∧ countSubmits (process_videos_from_prompts missFirstEnv "bkt" 1
        ["p1", "p2"] "red shoes").2 = 1
    ∧ ([("s3://bkt/out7/output.mp4", "p2")] : List (String × String)).length
        ≠ (["p1", "p2"] : List String).length := by
  refine ⟨rfl, by decide, by decide⟩

/-- Claim C2 (amended): over N prompts of which M miss, the batch
performs exactly N − M submissions and returns the N − M
`(result, prompt)` pairs of the hit items in input order; a missed item
is skipped and contributes no entry at all to the returned list. -/
theorem process_skips_produce_no_entries (env : Env) (bucket : String)
    (fuel : Nat) (prompt_list : List String) (object_prompt : String)
    (hfuel : 1 ≤ fuel)
    (hcomp : ∀ arn, (env.poll arn 0).status = "Completed") :
    (process_videos_from_prompts env bucket fuel prompt_list
        object_prompt).1
      = some (Except.ok (expectedOutputs env object_prompt prompt_list 0 0))
    ∧ countSubmits (process_videos_from_prompts env bucket fuel prompt_list
        object_prompt).2
      = prompt_list.length - countMisses env object_prompt prompt_list 0
    ∧ (expectedOutputs env object_prompt prompt_list 0 0).length
      = prompt_list.length - countMisses env object_prompt prompt_list 0 := by
  have h := processAux_all_completed env bucket object_prompt fuel hfuel
    hcomp prompt_list 0 0 [] []
  have hc := countHits_add_countMisses env object_prompt prompt_list 0
  have hl := expectedOutputs_length env object_prompt prompt_list 0 0
  refine ⟨?_, ?_, ?_⟩
  · simpa [process_videos_from_prompts] using h.1
  · have h2 := h.2
    simp only [process_videos_from_prompts, countSubmits] at h2 ⊢
    omega
  · omega

/-- Witness for `process_skips_produce_no_entries` at the concrete
environment `missFirstEnv`. -/
theorem process_skips_produce_no_entries_witness :
    (process_videos_from_prompts missFirstEnv "bkt" 1 ["p1", "p2"]
        "red shoes").1
      = some (Except.ok (expectedOutputs missFirstEnv "red shoes"
          ["p1", "p2"] 0 0))
    ∧ countSubmits (process_videos_from_prompts missFirstEnv "bkt" 1
        ["p1", "p2"] "red shoes").2
      = (["p1", "p2"] : List String).length
          - countMisses missFirstEnv "red shoes" ["p1", "p2"] 0
    ∧ (expectedOutputs missFirstEnv "red shoes" ["p1", "p2"] 0 0).length
      = (["p1", "p2"] : List String).length
          - countMisses missFirstEnv "red shoes" ["p1", "p2"] 0 :=
  process_skips_produce_no_entries missFirstEnv "bkt" 1 ["p1", "p2"]
    "red shoes" (by omega) (fun _ => rfl)

/-- An environment in which every lookup hits and every submitted job
fails on its first poll. -/
def alwaysFailEnv : Env :=
  { search := fun _ _ _ => [{ image_base64_s3_uri := "s3://bkt/keys/img1.txt" }],
    s3Text := fun _ _ => some "IMGDATA",
    submitArn := fun _ => "arn-0",
    poll := fun _ _ => { status := "Failed", s3Uri := "",
                         failureMessage := "model error", submitTime := "" } }

/-- Claim C3, as stated, is false: with two prompts whose first job
fails, the batch run ends with the propagated `RuntimeError` instead of a
collected list, and only one OpenSearch query ever happens — the second
item is never processed, so the failure did abort the rest of the
batch. -/
theorem process_failure_not_caught_counterexample :
    (process_videos_from_prompts alwaysFailEnv "bkt" 1 ["p1", "p2"]
        "red shoes").1
      = some (Except.error "Video generation failed.")
    ∧ countSearches (process_videos_from_prompts alwaysFailEnv "bkt" 1
        ["p1", "p2"] "red shoes").2 = 1 := by
  refine ⟨rfl, by decide⟩

/-- Claim C3 (amended): a generation job reaching `Failed` raises out of
`process_videos_from_prompts` uncaught: the run ends with that error, no
skip is recorded for the item, and the remaining items are never
processed — the run is the same whatever prompts follow the failing
one. -/
theorem process_failure_aborts_batch (env : Env) (bucket : String)
    (fuel : Nat) (object_prompt p e : String)
    (hhit : env.search 0 object_prompt 1 ≠ [])
    (herr : (monitor_video_generation (env.poll (env.submitArn 0))
        (env.submitArn 0) fuel).result = some (Except.error e)) :
    ∀ rest rest2 : List String,
      (process_videos_from_prompts env bucket fuel (p :: rest)
          object_prompt).1
        = some (Except.error e)
      ∧ process_videos_from_prompts env bucket fuel (p :: rest)
          object_prompt
        = process_videos_from_prompts env bucket fuel (p :: rest2)
          object_prompt := by
  intro rest rest2
  cases hs : env.search 0 object_prompt 1 with
  | nil => exact absurd hs hhit
  | cons hit hits =>
    constructor
    · simp [process_videos_from_prompts, processAux, hs, herr]
    · simp [process_videos_from_prompts, processAux, hs, herr]

/-- Witness for `process_failure_aborts_batch` at the concrete
environment `alwaysFailEnv`: two batches sharing the failing first item
but differing afterwards run identically. -/
theorem process_failure_aborts_batch_witness :
    (process_videos_from_prompts alwaysFailEnv "bkt" 1 ("p1" :: ["pA"])
        "red shoes").1
      = some (Except.error "Video generation failed.")
    ∧ process_videos_from_prompts alwaysFailEnv "bkt" 1 ("p1" :: ["pA"])
        "red shoes"
      = process_videos_from_prompts alwaysFailEnv "bkt" 1 ("p1" :: ["pB"])
        "red shoes" :=
  process_failure_aborts_batch alwaysFailEnv "bkt" 1 "red shoes" "p1"
    "Video generation failed." (by decide) rfl ["pA"] ["pB"]

/-- Claim C9: the two `build_model_input` definitions return equal
payload dictionaries whenever `image_base64` is a non-empty string; on
`None` or the empty string they differ — the text+image variant keeps an
empty "images" list inside `textToVideoParams` while the text-only
variant omits the "images" key entirely. -/
theorem build_model_input_variants (p : String) (d f : Int) (r : String)
    (sd : Int) :
    (∀ s : String, s ≠ "" →
        TextImageNotebook.build_model_input p (some s) d f r sd
          = TextOnlyNotebook.build_model_input p (some s) d f r sd)
    ∧ (TextImageNotebook.build_model_input p none d f r sd
        ).textToVideoParams.images = some []
    ∧ (TextOnlyNotebook.build_model_input p none d f r sd
        ).textToVideoParams.images = none
    ∧ (TextImageNotebook.build_model_input p (some "") d f r sd
        ).textToVideoParams.images = some []
    ∧ (TextOnlyNotebook.build_model_input p (some "") d f r sd
        ).textToVideoParams.images = none
    ∧ TextImageNotebook.build_model_input p none d f r sd
        ≠ TextOnlyNotebook.build_model_input p none d f r sd := by
  refine ⟨?_, rfl, rfl, rfl, rfl, ?_⟩
  · intro s hs
    have ht : strOptTruthy (some s) = true := by
      simp [strOptTruthy, hs]
    simp [TextImageNotebook.build_model_input,
      TextOnlyNotebook.build_model_input, ht]
  · intro h
    have h2 := congrArg (fun m => m.textToVideoParams.images) h
    simp [TextImageNotebook.build_model_input,
      TextOnlyNotebook.build_model_input, strOptTruthy] at h2

/-- Witness for `build_model_input_variants`: the two variants agree at a
concrete non-empty image payload. -/
theorem build_model_input_variants_witness :
    ("imgdata" : String) ≠ ""
    ∧ TextImageNotebook.build_model_input "a prompt" (some "imgdata")
        6 24 "1280x720" 0
      = TextOnlyNotebook.build_model_input "a prompt" (some "imgdata")
        6 24 "1280x720" 0 :=
  ⟨by decide,
   (build_model_input_variants "a prompt" 6 24 "1280x720" 0).1 "imgdata"
     (by decide)⟩

end VideoRag
